import Mathlib

/-!
Shallow embedding of the `web2bot` Discord slash-command router
(`src/router.ts`) together with proofs about its specification.

Strings are modelled as Lean `String`s (sequences of characters); this matches
the JavaScript code on all inputs without surrogate pairs.  Fallible
JavaScript code (expressions that can throw a `TypeError` at runtime) is
modelled with `Except String`.
-/

namespace Web2bot

/-! ### Control-code text processor (`wrapText`, src/router.ts lines 606-636) -/

/-- Embedding of the body of `wrapText`: the index-based loop over the input,
with `result` the committed text and `currentLine` the line being built.
Mirrors the JavaScript loop, including the one-character lookahead
`text[i + 1]` used to detect a CRLF pair. -/
def wrapTextGo (text : List Char) (i : Nat) (result currentLine : List Char) :
    List Char :=
  if h : i < text.length then
    if text[i] = '\x08' then
      wrapTextGo text (i + 1) result currentLine.dropLast
    else if text[i] = '\x0D' ∧ text[i + 1]? = some '\x0A' then
      wrapTextGo text (i + 2) (result ++ currentLine ++ ['\x0D', '\x0A']) []
    else if text[i] = '\x0D' then
      wrapTextGo text (i + 1) result []
    else if text[i] = '\x0C' then
      wrapTextGo text (i + 1) [] []
    else
      wrapTextGo text (i + 1) result (currentLine ++ [text[i]])
  else
    result ++ currentLine
termination_by text.length - i
decreasing_by
all_goals omega

/-- Embedding of `wrapText` itself: run the loop from index 0 with empty
committed result and empty current line. -/
def wrapText (s : String) : String :=
  String.mk (wrapTextGo s.data 0 [] [])

/-- Rules-level restatement of the control-code processor, written from the
spec's four rules: `\b` deletes the previous character of the current line,
`\r` followed by `\n` commits the current line plus the CRLF, a bare `\r`
clears the current line, `\f` clears both the result and the current line,
any other character is appended, and the returned text is the committed
result followed by the final uncommitted line. -/
def wrapRules : List Char → List Char → List Char → List Char
  | [], result, currentLine => result ++ currentLine
  | c :: rest, result, currentLine =>
    if c = '\x08' then
      wrapRules rest result currentLine.dropLast
    else if c = '\x0D' ∧ rest.head? = some '\x0A' then
      wrapRules rest.tail (result ++ currentLine ++ ['\x0D', '\x0A']) []
    else if c = '\x0D' then
      wrapRules rest result []
    else if c = '\x0C' then
      wrapRules rest [] []
    else
      wrapRules rest result (currentLine ++ [c])
termination_by l _ _ => l.length
decreasing_by
all_goals simp [List.length_tail, List.length_cons]
all_goals omega

/-- Spec-level processor on strings. -/
def wrapTextSpec (s : String) : String :=
  String.mk (wrapRules s.data [] [])

theorem wrapRules_nil (result currentLine : List Char) :
    wrapRules [] result currentLine = result ++ currentLine := by
  rw [wrapRules.eq_def]

theorem wrapRules_cons (c : Char) (rest result currentLine : List Char) :
    wrapRules (c :: rest) result currentLine =
      if c = '\x08' then
        wrapRules rest result currentLine.dropLast
      else if c = '\x0D' ∧ rest.head? = some '\x0A' then
        wrapRules rest.tail (result ++ currentLine ++ ['\x0D', '\x0A']) []
      else if c = '\x0D' then
        wrapRules rest result []
      else if c = '\x0C' then
        wrapRules rest [] []
      else
        wrapRules rest result (currentLine ++ [c]) := by
  rw [wrapRules.eq_def]

theorem wrapTextGo_step (text : List Char) (i : Nat) (result currentLine : List Char)
    (h : i < text.length) :
    wrapTextGo text i result currentLine =
      if text[i] = '\x08' then
        wrapTextGo text (i + 1) result currentLine.dropLast
      else if text[i] = '\x0D' ∧ text[i + 1]? = some '\x0A' then
        wrapTextGo text (i + 2) (result ++ currentLine ++ ['\x0D', '\x0A']) []
      else if text[i] = '\x0D' then
        wrapTextGo text (i + 1) result []
      else if text[i] = '\x0C' then
        wrapTextGo text (i + 1) [] []
      else
        wrapTextGo text (i + 1) result (currentLine ++ [text[i]]) := by
  rw [wrapTextGo.eq_def, dif_pos h]

theorem wrapTextGo_eq_wrapRules (text : List Char) :
    ∀ (k i : Nat), text.length - i ≤ k → ∀ (result currentLine : List Char),
      wrapTextGo text i result currentLine =
        wrapRules (text.drop i) result currentLine := by
  intro k
  induction k with
  | zero =>
    intro i hk result currentLine
    have hlen : text.length ≤ i := by omega
    rw [wrapTextGo.eq_def, dif_neg (by omega), List.drop_eq_nil_of_le hlen,
      wrapRules_nil]
  | succ k ih =>
    intro i hk result currentLine
    by_cases h : i < text.length
    · have hdrop : text.drop i = text[i] :: text.drop (i + 1) :=
        List.drop_eq_getElem_cons h
      rw [wrapTextGo_step text i result currentLine h, hdrop, wrapRules_cons,
        List.head?_drop, List.tail_drop]
      have h2 : i + 1 + 1 = i + 2 := rfl
      rw [h2]
      split_ifs
      · exact ih (i + 1) (by omega) result currentLine.dropLast
      · exact ih (i + 2) (by omega) (result ++ currentLine ++ ['\x0D', '\x0A']) []
      · exact ih (i + 1) (by omega) result []
      · exact ih (i + 1) (by omega) [] []
      · exact ih (i + 1) (by omega) result (currentLine ++ [text[i]])
    · rw [wrapTextGo.eq_def, dif_neg h,
        List.drop_eq_nil_of_le (by omega), wrapRules_nil]

/-- C1: for every input string, `wrapText` implements exactly the four
documented control-code rules (backspace deletes the previous character of
the current line, CRLF commits the current line with the CRLF, a bare CR
clears the current line, form feed clears both result and current line,
every other character is appended), and the returned string is the committed
result followed by the final uncommitted line. -/
theorem wrapText_implements_rules : ∀ s : String, wrapText s = wrapTextSpec s := by
  intro s
  unfold wrapText wrapTextSpec
  rw [wrapTextGo_eq_wrapRules s.data s.data.length 0 (by omega)]
  rfl

/-! ### Streaming edit content update (src/router.ts lines 417-433) -/

/-- JavaScript `s.slice(-n)` for a non-negative `n`: the last `n` characters,
or the whole string when it is shorter.  The code computes `-1 * limit`, and
`slice(-0)` is `slice(0)`, the whole string, so `n = 0` returns `s`. -/
def jsSliceNeg (s : String) (n : Nat) : String :=
  if n = 0 then s else String.mk (s.data.drop (s.data.length - n))

/-- Embedding of the content update in the streaming bridge transform:
`chunk = message.content + chunk; message.content =
wrapText(chunk).slice(-1 * characterLimit)`. -/
def updateContent (limit : Nat) (prev chunk : String) : String :=
  jsSliceNeg (wrapText (prev ++ chunk)) limit

theorem length_mk (l : List Char) : (String.mk l).length = l.length := rfl

theorem mk_append (a b : List Char) :
    String.mk a ++ String.mk b = String.mk (a ++ b) := rfl

/-- C3: at every edit, the outgoing content produced by the bridge has length
at most `characterLimit`, and it is a suffix (the tail, never the head) of
the control-code-processed concatenation of the previous content and the new
chunk, of length `min characterLimit (processed length)`. -/
theorem content_bounded_tail (limit : Nat) (prev chunk : String) (h : 0 < limit) :
    (updateContent limit prev chunk).length ≤ limit ∧
    ∃ pre : String,
      pre ++ updateContent limit prev chunk = wrapText (prev ++ chunk) ∧
      (updateContent limit prev chunk).length =
        min limit (wrapText (prev ++ chunk)).length := by
  have hne : limit ≠ 0 := by omega
  unfold updateContent jsSliceNeg
  rw [if_neg hne]
  set w := wrapText (prev ++ chunk) with hw
  have hlen : w.length = w.data.length := rfl
  refine ⟨?_, String.mk (w.data.take (w.data.length - limit)), ?_, ?_⟩
  · rw [length_mk, List.length_drop]
    omega
  · rw [mk_append, List.take_append_drop]
  · rw [length_mk, List.length_drop]
    omega

theorem content_bounded_tail_witness :
    (updateContent 2000 "a" "b").length ≤ 2000 ∧
    ∃ pre : String,
      pre ++ updateContent 2000 "a" "b" = wrapText ("a" ++ "b") ∧
      (updateContent 2000 "a" "b").length =
        min 2000 (wrapText ("a" ++ "b")).length :=
  content_bounded_tail 2000 "a" "b" (by decide)

/-! ### RateLimitStream (src/router.ts lines 567-601)

Discrete-event model of the single-threaded event loop: chunks arrive at
known times, at most one timer is pending (the transform only sets a timer
when none is pending), and a pending timer whose deadline has passed fires
before the next event is handled.  Flushes are recorded as
(time, bytes) pairs. -/

structure RLState where
  buffer : List Nat
  timer : Option Nat
deriving DecidableEq, Repr

/-- Fire the pending timer callback if its deadline `d` is at or before time
`t`: enqueue the whole buffer, clear the buffer and the timer slot. -/
def rlFire (t : Nat) (s : RLState) (out : List (Nat × List Nat)) :
    RLState × List (Nat × List Nat) :=
  match s.timer with
  | some d => if d ≤ t then (⟨[], none⟩, out ++ [(d, s.buffer)]) else (s, out)
  | none => (s, out)

/-- The `transform` callback: append the chunk to the buffer and start a
timer of `rateLimit` milliseconds if none is pending. -/
def rlChunk (rateLimit t : Nat) (data : List Nat) (s : RLState) : RLState :=
  match s.timer with
  | some d => ⟨s.buffer ++ data, some d⟩
  | none => ⟨s.buffer ++ data, some (t + rateLimit)⟩

/-- Process a time-ordered list of (arrival time, chunk) events. -/
def rlProcess (rateLimit : Nat) :
    List (Nat × List Nat) → RLState → List (Nat × List Nat) →
      RLState × List (Nat × List Nat)
  | [], s, out => (s, out)
  | (t, data) :: evs, s, out =>
    rlProcess rateLimit evs (rlChunk rateLimit t data (rlFire t s out).1)
      (rlFire t s out).2

/-- The `flush` callback at stream end (time `tEnd`): a timer whose deadline
already passed has fired; then the pending timer (if any) is cleared and the
remaining buffered bytes, if non-empty, are enqueued once. -/
def rlFlushEnd (tEnd : Nat) (s : RLState) (out : List (Nat × List Nat)) :
    RLState × List (Nat × List Nat) :=
  if (rlFire tEnd s out).1.buffer.isEmpty then
    (⟨[], none⟩, (rlFire tEnd s out).2)
  else
    (⟨[], none⟩, (rlFire tEnd s out).2 ++ [(tEnd, (rlFire tEnd s out).1.buffer)])

/-- Run the stream: process all chunk events from the empty initial state,
then flush at stream end. -/
def rlRun (rateLimit : Nat) (events : List (Nat × List Nat)) (tEnd : Nat) :
    RLState × List (Nat × List Nat) :=
  rlFlushEnd tEnd (rlProcess rateLimit events ⟨[], none⟩ []).1
    (rlProcess rateLimit events ⟨[], none⟩ []).2

/-- C4: with `rateLimit = 1000`, two chunks arriving at t = 0 and t = 500
before any flush are delivered downstream as exactly one merged flush, at
t = 1000 or at stream end if that comes first; at stream end the pending
timer is cancelled and the buffer is left empty, so there is no duplicate
trailing flush. -/
theorem rateLimit_merges (c1 c2 : List Nat) (tEnd : Nat)
    (h5 : 500 ≤ tEnd) (hne : c1 ≠ []) :
    (rlRun 1000 [(0, c1), (500, c2)] tEnd).2 = [(min 1000 tEnd, c1 ++ c2)] ∧
    (rlRun 1000 [(0, c1), (500, c2)] tEnd).1.buffer = [] ∧
    (rlRun 1000 [(0, c1), (500, c2)] tEnd).1.timer = none := by
  have hbuf : c1 ++ c2 ≠ [] := by
    intro hcon
    exact hne (List.append_eq_nil.mp hcon).1
  have hp : rlProcess 1000 [(0, c1), (500, c2)] ⟨[], none⟩ [] =
      (⟨c1 ++ c2, some 1000⟩, []) := rfl
  unfold rlRun
  rw [hp]
  by_cases h : 1000 ≤ tEnd
  · simp [rlFlushEnd, rlFire, h, Nat.min_eq_left h]
  · simp [rlFlushEnd, rlFire, h, List.isEmpty_iff, hbuf,
      Nat.min_eq_right (by omega : tEnd ≤ 1000)]

theorem rateLimit_merges_witness :
    (rlRun 1000 [(0, [1]), (500, [2])] 700).2 = [(min 1000 700, [1] ++ [2])] ∧
    (rlRun 1000 [(0, [1]), (500, [2])] 700).1.buffer = [] ∧
    (rlRun 1000 [(0, [1]), (500, [2])] 700).1.timer = none :=
  rateLimit_merges [1] [2] 700 (by decide) (by decide)

/-! ### Request validation (`validate`, src/router.ts lines 152-181, and
`hexToUint8Array`, lines 560-562)

The Ed25519 `verify` function is an external library call (it is imported,
not defined in this repository); it is taken as an opaque boolean-valued
parameter.  `TextEncoder().encode` is UTF-8 encoding.  A JavaScript
`TypeError` thrown at runtime is modelled as `Except.error`. -/

/-- One character of a hexadecimal digit. -/
def isHexDigitChar (c : Char) : Bool :=
  ('0' ≤ c && c ≤ '9') || ('a' ≤ c && c ≤ 'f') || ('A' ≤ c && c ≤ 'F')

def hexDigitVal (c : Char) : Nat :=
  if '0' ≤ c && c ≤ '9' then c.toNat - 48
  else if 'a' ≤ c && c ≤ 'f' then c.toNat - 87
  else c.toNat - 55

/-- JavaScript `parseInt(val, 16)`: parse the longest hexadecimal-digit
prefix of the string; `none` models `NaN` (no digit at the start).  The
strings fed to it here are the 1- or 2-character chunks from the regex
below, which carry no sign or whitespace. -/
def parseIntHex (s : String) : Option Nat :=
  match s.data.takeWhile isHexDigitChar with
  | [] => none
  | ds => some (ds.foldl (fun acc c => acc * 16 + hexDigitVal c) 0)

/-- Storing a `parseInt` result in a `Uint8Array`: `NaN` becomes 0, other
values are taken modulo 256. -/
def toUint8 : Option Nat → Nat
  | none => 0
  | some v => v % 256

/-- Split a character list into chunks of two (a final odd character forms a
chunk of one). -/
def chunk2 : List Char → List (List Char)
  | [] => []
  | [a] => [[a]]
  | a :: b :: rest => [a, b] :: chunk2 rest

/-- JavaScript `hex.match(/.{1,2}/g)`: `null` (modelled as `none`) on the
empty string, otherwise the greedy chunks of one or two characters.  (The
`.` class excludes line terminators, which cannot occur in header values.) -/
def jsMatchPairs (s : String) : Option (List String) :=
  if s.data.isEmpty then none else some ((chunk2 s.data).map String.mk)

/-- Embedding of `hexToUint8Array`.  When `match` returns `null` — the input
is the empty string — the subsequent `.map` throws a `TypeError`; a `null`
input (missing header, forced with `!`) throws already at `.match`.  Both
throws surface as `Except.error`; the missing-header throw is raised by the
caller before this function can be entered, see `validate`. -/
def hexToUint8Array (hex : String) : Except String (List Nat) :=
  match jsMatchPairs hex with
  | none => Except.error ("TypeError: Cannot read properties of null")
  | some chunks => Except.ok (chunks.map (fun v => toUint8 (parseIntHex v)))

/-- UTF-8 bytes of a string, as produced by `TextEncoder().encode`. -/
def encodeUTF8 (s : String) : List Nat :=
  s.toUTF8.data.toList.map (fun b => b.toNat)

/-- The parts of an inbound HTTP request that `validate` reads.  A missing
header is `none` (JavaScript `null`). -/
structure WebRequest where
  method : String
  pathname : String
  sigHeader : Option String
  tsHeader : Option String
  body : String
deriving DecidableEq, Repr

inductive ValidateResult where
  | failure : ValidateResult
  | success : String → ValidateResult
deriving DecidableEq, Repr

/-- JavaScript string coercion of a possibly-`null` header when concatenated:
`null + body` is the string "null" followed by the body. -/
def headerOrNull : Option String → String
  | some t => t
  | none => "null"

/-- Embedding of `validate`: non-POST or wrong path short-circuit to the
failure result; otherwise the signature and timestamp headers are read, the
body is read, and the Ed25519 check runs over timestamp + body.  Reading a
missing signature header gives `null`, and `hexToUint8Array(null)` throws a
`TypeError` at `null.match`. -/
def validate (endpoint publicKey : String)
    (verify : List Nat → List Nat → List Nat → Bool) (req : WebRequest) :
    Except String ValidateResult :=
  if req.method ≠ "POST" then Except.ok ValidateResult.failure
  else if req.pathname ≠ endpoint then Except.ok ValidateResult.failure
  else
    match req.sigHeader with
    | none => Except.error ("TypeError: Cannot read properties of null")
    | some sig =>
      match hexToUint8Array sig with
      | Except.error e => Except.error e
      | Except.ok sigBytes =>
        match hexToUint8Array publicKey with
        | Except.error e => Except.error e
        | Except.ok keyBytes =>
          if verify (encodeUTF8 (headerOrNull req.tsHeader ++ req.body))
              sigBytes keyBytes then
            Except.ok (ValidateResult.success req.body)
          else Except.ok ValidateResult.failure

/-- The caller (src/router.ts lines 247-250) maps a failure result to a JSON
error response with HTTP status 401 (`Sum.inl 401`) and a success to the
validated body (`Sum.inr body`); a thrown `TypeError` propagates. -/
def respondValidation (endpoint publicKey : String)
    (verify : List Nat → List Nat → List Nat → Bool) (req : WebRequest) :
    Except String (Nat ⊕ String) :=
  match validate endpoint publicKey verify req with
  | Except.error e => Except.error e
  | Except.ok ValidateResult.failure => Except.ok (Sum.inl 401)
  | Except.ok (ValidateResult.success body) => Except.ok (Sum.inr body)

/-- C5 counterexample: a POST to the right path with NO signature header does
not produce the 401 JSON error the claim requires — the request handler
throws a `TypeError` (from `hexToUint8Array(null)`), refuting the claim that
every failure case yields a 401 response without throwing. -/
theorem validate_missing_signature_throws :
    respondValidation ("/") ("aabb") (fun _ _ _ => true)
      ⟨"POST", "/", none, some ("1700000000"), "x"⟩ =
      Except.error ("TypeError: Cannot read properties of null") := rfl

/-- C5 amended: wrong method or wrong path yield the 401 error response;
with a signature header present whose hex decoding succeeds (any non-empty
header string), a failed verification — including a missing timestamp header
(encoded as the string "null") or a malformed non-hex signature (decoded to
zero bytes) — yields the 401 error response, and a successful verification
returns the raw body; but a missing (or empty) signature header instead
causes a thrown `TypeError`, not a 401 response. -/
theorem validate_behavior (endpoint publicKey : String)
    (verify : List Nat → List Nat → List Nat → Bool) (req : WebRequest) :
    (req.method ≠ "POST" ∨ req.pathname ≠ endpoint →
      respondValidation endpoint publicKey verify req = Except.ok (Sum.inl 401)) ∧
    (req.method = "POST" → req.pathname = endpoint → req.sigHeader = none →
      respondValidation endpoint publicKey verify req =
        Except.error ("TypeError: Cannot read properties of null")) ∧
    (∀ sig sigBytes keyBytes, req.method = "POST" → req.pathname = endpoint →
      req.sigHeader = some sig →
      hexToUint8Array sig = Except.ok sigBytes →
      hexToUint8Array publicKey = Except.ok keyBytes →
      verify (encodeUTF8 (headerOrNull req.tsHeader ++ req.body)) sigBytes
          keyBytes = false →
      respondValidation endpoint publicKey verify req = Except.ok (Sum.inl 401)) ∧
    (∀ sig sigBytes keyBytes, req.method = "POST" → req.pathname = endpoint →
      req.sigHeader = some sig →
      hexToUint8Array sig = Except.ok sigBytes →
      hexToUint8Array publicKey = Except.ok keyBytes →
      verify (encodeUTF8 (headerOrNull req.tsHeader ++ req.body)) sigBytes
          keyBytes = true →
      respondValidation endpoint publicKey verify req =
        Except.ok (Sum.inr req.body)) := by
  refine ⟨?_, ?_, ?_, ?_⟩
  · rintro (h | h)
    · simp [respondValidation, validate, h]
    · by_cases hm : req.method = "POST"
      · simp [respondValidation, validate, hm, h]
      · simp [respondValidation, validate, hm]
  · intro h1 h2 h3
    simp [respondValidation, validate, h1, h2, h3]
  · intro sig sigBytes keyBytes h1 h2 h3 h4 h5 h6
    simp [respondValidation, validate, h1, h2, h3, h4, h5, h6]
  · intro sig sigBytes keyBytes h1 h2 h3 h4 h5 h6
    simp [respondValidation, validate, h1, h2, h3, h4, h5, h6]

theorem validate_behavior_witness :
    respondValidation ("/") ("00") (fun _ _ _ => false)
      ⟨"POST", "/", some ("ab"), some ("1"), "x"⟩ = Except.ok (Sum.inl 401) :=
  (validate_behavior ("/") ("00") (fun _ _ _ => false)
      ⟨"POST", "/", some ("ab"), some ("1"), "x"⟩).2.2.1 ("ab") [171] [0]
    rfl rfl rfl rfl rfl rfl

/-! ### Interaction parameter resolution (src/router.ts lines 292-315)

The route is parsed by the `URL` constructor into a pathname (with `:name`
placeholders) and a search-parameter list; both are modelled directly.
`URLSearchParams.has` / `.set` and `Record<string,string>` assignment are
embedded below with their JavaScript semantics. -/

/-- A supplied interaction option: a name and a value. -/
structure CmdOption where
  name : String
  value : String
deriving DecidableEq, Repr

/-- `URLSearchParams.has(name)`. -/
def spHas (sp : List (String × String)) (name : String) : Bool :=
  sp.any (fun p => p.1 == name)

/-- `URLSearchParams.set(name, value)`: update the first entry with that key
and delete any later duplicates; append if the key is absent. -/
def spSet : List (String × String) → String → String → List (String × String)
  | [], name, value => [(name, value)]
  | (k, v) :: rest, name, value =>
    if k == name then (k, value) :: rest.filter (fun p => !(p.1 == name))
    else (k, v) :: spSet rest name value

/-- JavaScript object property assignment `params[name] = value`: overwrite
in place if present, else append. -/
def recordSet : List (String × String) → String → String → List (String × String)
  | [], name, value => [(name, value)]
  | (k, v) :: rest, name, value =>
    if k == name then (k, value) :: rest else (k, v) :: recordSet rest name value

/-- Lookup in a JavaScript object modelled as an association list. -/
def recordGet (r : List (String × String)) (name : String) : Option String :=
  (r.find? (fun p => p.1 == name)).map Prod.snd

/-- JavaScript `String.prototype.replace` with a plain-string pattern:
replace the first occurrence only. -/
def replaceFirstL (pat repl : List Char) : List Char → List Char
  | [] => if pat.isPrefixOf ([] : List Char) then repl ++ ([] : List Char).drop pat.length else []
  | c :: rest =>
    if pat.isPrefixOf (c :: rest) then repl ++ (c :: rest).drop pat.length
    else c :: replaceFirstL pat repl rest

def replaceFirst (s pat repl : String) : String :=
  String.mk (replaceFirstL pat.data repl.data s.data)

/-- Embedding of the `while (optionCount--)` loop: iterate the supplied
options from the last index down to 0; an option whose name is an existing
search parameter overrides that parameter's value and is spliced out of the
option list. -/
def optionPass :
    Nat → List CmdOption → List (String × String) →
      List CmdOption × List (String × String)
  | 0, opts, sp => (opts, sp)
  | n + 1, opts, sp =>
    match opts[n]? with
    | none => optionPass n opts sp
    | some o =>
      if spHas sp o.name then
        optionPass n (opts.eraseIdx n) (spSet sp o.name o.value)
      else optionPass n opts sp

/-- Embedding of the `options.forEach` pass over the remaining options:
record each in the parameter map and substitute its `:name` placeholder in
the pathname (first occurrence). -/
def requiredPass :
    List CmdOption → List (String × String) → String →
      List (String × String) × String
  | [], params, pathname => (params, pathname)
  | o :: rest, params, pathname =>
    requiredPass rest (recordSet params o.name o.value)
      (replaceFirst pathname (":" ++ o.name) o.value)

/-- Full resolution for one interaction: returns the parameter map passed to
the handler, the substituted pathname, and the final search parameters of
the synthetic request URL. -/
def resolveInteraction (routePath : String) (routeQuery : List (String × String))
    (options : List CmdOption) :
    List (String × String) × String × List (String × String) :=
  ((requiredPass (optionPass options.length options routeQuery).1 [] routePath).1,
   (requiredPass (optionPass options.length options routeQuery).1 [] routePath).2,
   (optionPass options.length options routeQuery).2)

/-- C2 counterexample: for route `/hello/:name?age=` with options
age = 9 and name = Ann, the parameter map passed to the handler does NOT
contain `age` — the matched optional option is applied to the query string
and spliced out before the map is built — refuting the claimed map
`age = 9, name = Ann`. -/
theorem params_omit_matched_optional :
    recordGet
      (resolveInteraction ("/hello/:name") [("age", "")]
        [⟨"age", "9"⟩, ⟨"name", "Ann"⟩]).1 ("age") = none := rfl

/-- C2 amended: the interaction resolves to the parameter map
name = Ann (only), the synthetic URL path `/hello/Ann`, and the query
`age=9`. -/
theorem hello_resolution :
    resolveInteraction ("/hello/:name") [("age", "")]
        [⟨"age", "9"⟩, ⟨"name", "Ann"⟩] =
      ([("name", "Ann")], "/hello/Ann", [("age", "9")]) := rfl

/-! ### Structural characterisation of the backward option pass (for C9) -/

/-- Processing a list of options from its last element to its first, exactly
as the `while (optionCount--)` loop does: matching options update the search
parameters and are dropped, the others are kept in order. -/
def backPass :
    List CmdOption → List (String × String) →
      List CmdOption × List (String × String)
  | [], sp => ([], sp)
  | o :: rest, sp =>
    if spHas (backPass rest sp).2 o.name then
      ((backPass rest sp).1, spSet (backPass rest sp).2 o.name o.value)
    else (o :: (backPass rest sp).1, (backPass rest sp).2)

theorem any_filter_key (rest : List (String × String)) (k k' : String) :
    (rest.filter fun p => !(p.1 == k)).any (fun p => p.1 == k') =
      if k' = k then false else rest.any (fun p => p.1 == k') := by
  induction rest with
  | nil => by_cases h : k' = k <;> simp [h]
  | cons a rest ih =>
    by_cases h1 : a.1 = k
    · have hfa : ((fun p => !(p.1 == k)) a) = false := by simp [h1]
      rw [List.filter_cons]
      simp only [hfa, Bool.false_eq_true, if_false]
      rw [ih]
      by_cases h : k' = k
      · simp [h]
      · have hne : ¬ (a.1 = k') := by
          rw [h1]
          exact fun hc => h hc.symm
        simp [h, hne]
    · have hfa : ((fun p => !(p.1 == k)) a) = true := by simp [h1]
      rw [List.filter_cons]
      simp only [hfa, if_true]
      simp only [List.any_cons]
      rw [ih]
      by_cases h : k' = k
      · have hne : ¬ (a.1 = k') := by
          rw [h]
          exact h1
        simp [h, hne, h1]
      · simp [h]

theorem spHas_spSet (sp : List (String × String)) (k v : String)
    (hk : spHas sp k = true) (k' : String) :
    spHas (spSet sp k v) k' = spHas sp k' := by
  induction sp with
  | nil => simp [spHas] at hk
  | cons a rest ih =>
    rcases a with ⟨a1, a2⟩
    by_cases h1 : a1 = k
    · have hset : spSet ((a1, a2) :: rest) k v =
          (a1, v) :: rest.filter (fun p => !(p.1 == k)) := by
        simp [spSet, h1]
      rw [hset]
      simp only [spHas, List.any_cons]
      rw [any_filter_key]
      by_cases h : k' = k
      · have ha : a1 = k' := by rw [h1, h]
        simp [ha]
      · simp [h]
    · have hrest : spHas rest k = true := by
        simpa [spHas, List.any_cons, h1] using hk
      have hset : spSet ((a1, a2) :: rest) k v = (a1, a2) :: spSet rest k v := by
        simp [spSet, h1]
      rw [hset]
      simp only [spHas, List.any_cons]
      rw [show ((spSet rest k v).any fun p => p.1 == k') = spHas (spSet rest k v) k'
        from rfl, ih hrest]
      rfl

theorem backPass_spHas (l : List CmdOption) (sp : List (String × String))
    (k : String) : spHas (backPass l sp).2 k = spHas sp k := by
  induction l with
  | nil => rfl
  | cons o rest ih =>
    by_cases h : spHas (backPass rest sp).2 o.name = true
    · simp only [backPass]
      rw [if_pos h]
      rw [show ((backPass rest sp).1, spSet (backPass rest sp).2 o.name o.value).2
        = spSet (backPass rest sp).2 o.name o.value from rfl]
      rw [spHas_spSet _ _ _ h, ih]
    · simp only [backPass]
      rw [if_neg h]
      exact ih

theorem backPass_append (l₁ l₂ : List CmdOption) (sp : List (String × String)) :
    backPass (l₁ ++ l₂) sp =
      ((backPass l₁ (backPass l₂ sp).2).1 ++ (backPass l₂ sp).1,
       (backPass l₁ (backPass l₂ sp).2).2) := by
  induction l₁ with
  | nil => simp [backPass]
  | cons x l₁ ih =>
    simp only [List.cons_append, backPass, List.append_eq]
    rw [ih]
    dsimp only
    by_cases h : spHas (backPass l₁ (backPass l₂ sp).2).2 x.name = true
    · simp only [if_pos h]
    · simp only [if_neg h]
      simp

theorem backPass_mem (l : List CmdOption) (sp : List (String × String))
    (x : CmdOption) (hx : x ∈ (backPass l sp).1) : x ∈ l := by
  induction l with
  | nil => simp [backPass] at hx
  | cons o rest ih =>
    by_cases h : spHas (backPass rest sp).2 o.name = true
    · simp only [backPass] at hx
      rw [if_pos h] at hx
      exact List.mem_cons_of_mem _ (ih hx)
    · simp only [backPass] at hx
      rw [if_neg h] at hx
      have hx' : x = o ∨ x ∈ (backPass rest sp).1 := by
        simpa using hx
      rcases hx' with h1 | h1
      · exact h1 ▸ List.mem_cons_self _ _
      · exact List.mem_cons_of_mem _ (ih h1)

theorem optionPass_eq_backPass :
    ∀ (n : Nat) (opts : List CmdOption) (sp : List (String × String)),
      n ≤ opts.length →
      optionPass n opts sp =
        ((backPass (opts.take n) sp).1 ++ opts.drop n,
         (backPass (opts.take n) sp).2) := by
  intro n
  induction n with
  | zero =>
    intro opts sp h
    simp [optionPass, backPass]
  | succ n ih =>
    intro opts sp h
    have hn : n < opts.length := by omega
    have hget : opts[n]? = some opts[n] := List.getElem?_eq_getElem hn
    have htake : opts.take (n + 1) = opts.take n ++ [opts[n]] := by
      rw [List.take_succ, hget]
      rfl
    have hsingle : ∀ sp' : List (String × String), backPass [opts[n]] sp' =
        if spHas sp' (opts[n]).name then
          ([], spSet sp' (opts[n]).name (opts[n]).value)
        else ([opts[n]], sp') := by
      intro sp'
      simp [backPass]
    have hlt : (opts.take n).length = n := by
      simp [List.length_take]
      omega
    by_cases hhas : spHas sp (opts[n]).name = true
    · have he : opts.eraseIdx n = opts.take n ++ opts.drop (n + 1) :=
        List.eraseIdx_eq_take_drop_succ opts n
      have hlen' : n ≤ (opts.eraseIdx n).length := by
        rw [he, List.length_append, hlt]
        omega
      have htke : (opts.eraseIdx n).take n = opts.take n := by
        rw [he, List.take_append_eq_append_take, hlt]
        simp [List.take_take]
      have hdke : (opts.eraseIdx n).drop n = opts.drop (n + 1) := by
        rw [he, List.drop_append_eq_append_drop, hlt,
          List.drop_eq_nil_of_le (le_of_eq hlt), Nat.sub_self]
        simp
      rw [show optionPass (n + 1) opts sp =
          optionPass n (opts.eraseIdx n) (spSet sp (opts[n]).name (opts[n]).value) from by
        simp only [optionPass, hget]
        rw [if_pos hhas]]
      rw [ih _ _ hlen', htke, hdke, htake, backPass_append, hsingle sp]
      rw [if_pos hhas]
      dsimp only
      simp
    · rw [show optionPass (n + 1) opts sp = optionPass n opts sp from by
        simp only [optionPass, hget]
        rw [if_neg hhas]]
      rw [ih _ _ (by omega), htake, backPass_append, hsingle sp, if_neg hhas]
      have hdrop : opts.drop n = opts[n] :: opts.drop (n + 1) :=
        List.drop_eq_getElem_cons hn
      rw [hdrop]
      dsimp only
      simp [List.append_assoc]

theorem optionPass_full (opts : List CmdOption) (sp : List (String × String)) :
    optionPass opts.length opts sp = backPass opts sp := by
  rw [optionPass_eq_backPass opts.length opts sp le_rfl]
  rw [List.take_length, List.drop_length, List.append_nil]

theorem requiredPass_append (x y : List CmdOption)
    (params : List (String × String)) (p : String) :
    requiredPass (x ++ y) params p =
      requiredPass y (requiredPass x params p).1 (requiredPass x params p).2 := by
  induction x generalizing params p with
  | nil => rfl
  | cons o rest ih =>
    simp only [List.cons_append, requiredPass, List.append_eq]
    rw [ih]

theorem requiredPass_path_params (l : List CmdOption)
    (params params' : List (String × String)) (p : String) :
    (requiredPass l params p).2 = (requiredPass l params' p).2 := by
  induction l generalizing params params' p with
  | nil => rfl
  | cons o rest ih =>
    simp only [requiredPass]
    exact ih _ _ _

theorem replaceFirstL_no_occur (pat repl : List Char) (hne : pat ≠ []) :
    ∀ l : List Char, ¬ pat <:+: l → replaceFirstL pat repl l = l := by
  intro l
  induction l with
  | nil =>
    intro h
    rw [replaceFirstL]
    rw [if_neg ?hc]
    case hc =>
      cases pat with
      | nil => exact absurd rfl hne
      | cons a t => simp [List.isPrefixOf]
  | cons c rest ih =>
    intro h
    rw [replaceFirstL]
    rw [if_neg ?hc2]
    case hc2 =>
      intro hp
      have hpre := List.isPrefixOf_iff_prefix.mp hp
      rcases hpre with ⟨t, ht⟩
      exact h ⟨[], t, by simpa using ht⟩
    rw [ih ?hc3]
    case hc3 =>
      intro hinf
      rcases hinf with ⟨s, t, hst⟩
      exact h ⟨c :: s, t, by simp [hst]⟩

theorem replaceFirst_no_occur (s pat repl : String) (hne : pat.data ≠ [])
    (h : ¬ pat.data <:+: s.data) : replaceFirst s pat repl = s := by
  unfold replaceFirst
  rw [replaceFirstL_no_occur _ _ hne _ h]

theorem recordGet_recordSet_self (r : List (String × String)) (k v : String) :
    recordGet (recordSet r k v) k = some v := by
  induction r with
  | nil => simp [recordSet, recordGet]
  | cons a rest ih =>
    rcases a with ⟨a1, a2⟩
    by_cases h1 : a1 = k
    · have hs : recordSet ((a1, a2) :: rest) k v = (a1, v) :: rest := by
        simp [recordSet, h1]
      rw [hs]
      unfold recordGet
      rw [List.find?_cons_of_pos _ (by simp [h1])]
      rfl
    · have hs : recordSet ((a1, a2) :: rest) k v = (a1, a2) :: recordSet rest k v := by
        simp [recordSet, h1]
      rw [hs]
      unfold recordGet
      rw [List.find?_cons_of_neg _ (by simp [h1])]
      exact ih

theorem recordGet_recordSet_ne (r : List (String × String)) (k v q : String)
    (h : q ≠ k) : recordGet (recordSet r k v) q = recordGet r q := by
  induction r with
  | nil =>
    have hq : ¬ (k = q) := fun hc => h hc.symm
    simp [recordSet, recordGet, hq]
  | cons a rest ih =>
    rcases a with ⟨a1, a2⟩
    by_cases h1 : a1 = k
    · have hs : recordSet ((a1, a2) :: rest) k v = (a1, v) :: rest := by
        simp [recordSet, h1]
      rw [hs]
      have hq : ¬ (a1 = q) := by
        rw [h1]
        exact fun hc => h hc.symm
      unfold recordGet
      rw [List.find?_cons_of_neg _ (by simp [hq]),
        List.find?_cons_of_neg _ (by simp [hq])]
    · have hs : recordSet ((a1, a2) :: rest) k v = (a1, a2) :: recordSet rest k v := by
        simp [recordSet, h1]
      rw [hs]
      by_cases h2 : a1 = q
      · unfold recordGet
        rw [List.find?_cons_of_pos _ (by simp [h2]),
          List.find?_cons_of_pos _ (by simp [h2])]
      · unfold recordGet
        rw [List.find?_cons_of_neg _ (by simp [h2]),
          List.find?_cons_of_neg _ (by simp [h2])]
        exact ih

theorem requiredPass_recordGet (l : List CmdOption)
    (params : List (String × String)) (p : String) (q : String)
    (h : ∀ b ∈ l, b.name ≠ q) :
    recordGet (requiredPass l params p).1 q = recordGet params q := by
  induction l generalizing params p with
  | nil => rfl
  | cons o rest ih =>
    simp only [requiredPass]
    rw [ih _ _ (fun b hb => h b (List.mem_cons_of_mem _ hb))]
    exact recordGet_recordSet_ne _ _ _ _
      (fun hq => (h o (List.mem_cons_self _ _)) hq.symm)

/-- C9: an option `o` whose name matches neither an optional (query) slot of
the route (`h1`) nor a `:name` path placeholder at the point it is processed
(`h2`), and whose name is not shared by any option after it (`h3`), is still
recorded in the parameter map passed to the handler, and the synthetic
request URL (substituted pathname and final search parameters) is the same
as it would be without that option. -/
theorem unmatched_option_passthrough
    (routePath : String) (routeQuery : List (String × String))
    (l₁ l₂ : List CmdOption) (o : CmdOption)
    (h1 : spHas routeQuery o.name = false)
    (h3 : ∀ b ∈ l₂, b.name ≠ o.name)
    (h2 : ¬ (":" ++ o.name).data <:+:
      ((requiredPass (backPass l₁ (backPass l₂ routeQuery).2).1 []
        routePath).2).data) :
    (resolveInteraction routePath routeQuery (l₁ ++ o :: l₂)).2 =
      (resolveInteraction routePath routeQuery (l₁ ++ l₂)).2 ∧
    recordGet (resolveInteraction routePath routeQuery (l₁ ++ o :: l₂)).1
      o.name = some o.value := by
  have hsp2 : spHas (backPass l₂ routeQuery).2 o.name = false := by
    rw [backPass_spHas]
    exact h1
  have hocons : backPass (o :: l₂) routeQuery =
      (o :: (backPass l₂ routeQuery).1, (backPass l₂ routeQuery).2) := by
    simp only [backPass]
    rw [if_neg (by simp [hsp2])]
  have hrun1 : backPass (l₁ ++ o :: l₂) routeQuery =
      ((backPass l₁ (backPass l₂ routeQuery).2).1 ++
        o :: (backPass l₂ routeQuery).1,
       (backPass l₁ (backPass l₂ routeQuery).2).2) := by
    rw [backPass_append l₁ (o :: l₂) routeQuery, hocons]
  have hrun2 : backPass (l₁ ++ l₂) routeQuery =
      ((backPass l₁ (backPass l₂ routeQuery).2).1 ++ (backPass l₂ routeQuery).1,
       (backPass l₁ (backPass l₂ routeQuery).2).2) :=
    backPass_append l₁ l₂ routeQuery
  have ho1 : optionPass (l₁ ++ o :: l₂).length (l₁ ++ o :: l₂) routeQuery =
      ((backPass l₁ (backPass l₂ routeQuery).2).1 ++
        o :: (backPass l₂ routeQuery).1,
       (backPass l₁ (backPass l₂ routeQuery).2).2) := by
    rw [optionPass_full, hrun1]
  have ho2 : optionPass (l₁ ++ l₂).length (l₁ ++ l₂) routeQuery =
      ((backPass l₁ (backPass l₂ routeQuery).2).1 ++ (backPass l₂ routeQuery).1,
       (backPass l₁ (backPass l₂ routeQuery).2).2) := by
    rw [optionPass_full, hrun2]
  have hpatne : (":" ++ o.name).data ≠ [] := by
    have hd : (":" ++ o.name).data = ':' :: o.name.data := rfl
    rw [hd]
    exact List.cons_ne_nil _ _
  have hnoop : replaceFirst
      (requiredPass (backPass l₁ (backPass l₂ routeQuery).2).1 [] routePath).2
      (":" ++ o.name) o.value =
      (requiredPass (backPass l₁ (backPass l₂ routeQuery).2).1 [] routePath).2 :=
    replaceFirst_no_occur _ _ _ hpatne h2
  have hstep1 : requiredPass
      ((backPass l₁ (backPass l₂ routeQuery).2).1 ++
        o :: (backPass l₂ routeQuery).1) [] routePath =
      requiredPass (backPass l₂ routeQuery).1
        (recordSet
          (requiredPass (backPass l₁ (backPass l₂ routeQuery).2).1 [] routePath).1
          o.name o.value)
        (requiredPass (backPass l₁ (backPass l₂ routeQuery).2).1 [] routePath).2 := by
    rw [requiredPass_append]
    simp only [requiredPass]
    rw [hnoop]
  have hstep2 : requiredPass
      ((backPass l₁ (backPass l₂ routeQuery).2).1 ++ (backPass l₂ routeQuery).1)
      [] routePath =
      requiredPass (backPass l₂ routeQuery).1
        (requiredPass (backPass l₁ (backPass l₂ routeQuery).2).1 [] routePath).1
        (requiredPass (backPass l₁ (backPass l₂ routeQuery).2).1 [] routePath).2 :=
    requiredPass_append _ _ _ _
  have h3' : ∀ b ∈ (backPass l₂ routeQuery).1, b.name ≠ o.name :=
    fun b hb => h3 b (backPass_mem l₂ routeQuery b hb)
  constructor
  · unfold resolveInteraction
    rw [ho1, ho2]
    dsimp only
    rw [hstep1, hstep2]
    rw [requiredPass_path_params (backPass l₂ routeQuery).1
      (recordSet
        (requiredPass (backPass l₁ (backPass l₂ routeQuery).2).1 [] routePath).1
        o.name o.value)
      (requiredPass (backPass l₁ (backPass l₂ routeQuery).2).1 [] routePath).1]
  · unfold resolveInteraction
    rw [ho1]
    dsimp only
    rw [hstep1]
    rw [requiredPass_recordGet _ _ _ _ h3']
    exact recordGet_recordSet_self _ _ _

theorem unmatched_option_passthrough_witness :
    (resolveInteraction ("/hello/:name") [("age", "")]
        [⟨"name", "Ann"⟩, ⟨"extra", "5"⟩]).2 =
      (resolveInteraction ("/hello/:name") [("age", "")] [⟨"name", "Ann"⟩]).2 ∧
    recordGet (resolveInteraction ("/hello/:name") [("age", "")]
        [⟨"name", "Ann"⟩, ⟨"extra", "5"⟩]).1 ("extra") = some ("5") :=
  unmatched_option_passthrough ("/hello/:name") [("age", "")]
    [⟨"name", "Ann"⟩] [] ⟨"extra", "5"⟩ (by decide) (by simp) (by decide)

/-! ### Command derivation from a route (`commandFromUri`, src/router.ts
lines 497-557, and `NAME_REGEX`, line 17)

The command-name regex is
`^[-_\\p{L}\\p{N}\\p{sc=Deva}\\p{sc=Thai}]{1,32}$` with the `u` flag: an
anchored run of 1 to 32 characters drawn from a character class.  The
Unicode character classes are embedded as explicit code-point range tables
(Unicode Character Database, general categories L and N and the script
ranges of Devanagari and Thai from Scripts.txt). -/

/-- Code point ranges of Unicode general category L (letters), the set
matched by the regex class `\\p{L}`. -/
def unicodeLetterRanges : List (Nat × Nat) := [
  (65, 90), (97, 122), (170, 170), (181, 181), (186, 186), (192, 214), (216, 246), (248, 705),
  (710, 721), (736, 740), (748, 748), (750, 750), (880, 884), (886, 887), (890, 893), (895, 895),
  (902, 902), (904, 906), (908, 908), (910, 929), (931, 1013), (1015, 1153), (1162, 1327), (1329, 1366),
  (1369, 1369), (1376, 1416), (1488, 1514), (1519, 1522), (1568, 1610), (1646, 1647), (1649, 1747), (1749, 1749),
  (1765, 1766), (1774, 1775), (1786, 1788), (1791, 1791), (1808, 1808), (1810, 1839), (1869, 1957), (1969, 1969),
  (1994, 2026), (2036, 2037), (2042, 2042), (2048, 2069), (2074, 2074), (2084, 2084), (2088, 2088), (2112, 2136),
  (2144, 2154), (2160, 2183), (2185, 2190), (2208, 2249), (2308, 2361), (2365, 2365), (2384, 2384), (2392, 2401),
  (2417, 2432), (2437, 2444), (2447, 2448), (2451, 2472), (2474, 2480), (2482, 2482), (2486, 2489), (2493, 2493),
  (2510, 2510), (2524, 2525), (2527, 2529), (2544, 2545), (2556, 2556), (2565, 2570), (2575, 2576), (2579, 2600),
  (2602, 2608), (2610, 2611), (2613, 2614), (2616, 2617), (2649, 2652), (2654, 2654), (2674, 2676), (2693, 2701),
  (2703, 2705), (2707, 2728), (2730, 2736), (2738, 2739), (2741, 2745), (2749, 2749), (2768, 2768), (2784, 2785),
  (2809, 2809), (2821, 2828), (2831, 2832), (2835, 2856), (2858, 2864), (2866, 2867), (2869, 2873), (2877, 2877),
  (2908, 2909), (2911, 2913), (2929, 2929), (2947, 2947), (2949, 2954), (2958, 2960), (2962, 2965), (2969, 2970),
  (2972, 2972), (2974, 2975), (2979, 2980), (2984, 2986), (2990, 3001), (3024, 3024), (3077, 3084), (3086, 3088),
  (3090, 3112), (3114, 3129), (3133, 3133), (3160, 3162), (3165, 3165), (3168, 3169), (3200, 3200), (3205, 3212),
  (3214, 3216), (3218, 3240), (3242, 3251), (3253, 3257), (3261, 3261), (3293, 3294), (3296, 3297), (3313, 3314),
  (3332, 3340), (3342, 3344), (3346, 3386), (3389, 3389), (3406, 3406), (3412, 3414), (3423, 3425), (3450, 3455),
  (3461, 3478), (3482, 3505), (3507, 3515), (3517, 3517), (3520, 3526), (3585, 3632), (3634, 3635), (3648, 3654),
  (3713, 3714), (3716, 3716), (3718, 3722), (3724, 3747), (3749, 3749), (3751, 3760), (3762, 3763), (3773, 3773),
  (3776, 3780), (3782, 3782), (3804, 3807), (3840, 3840), (3904, 3911), (3913, 3948), (3976, 3980), (4096, 4138),
  (4159, 4159), (4176, 4181), (4186, 4189), (4193, 4193), (4197, 4198), (4206, 4208), (4213, 4225), (4238, 4238),
  (4256, 4293), (4295, 4295), (4301, 4301), (4304, 4346), (4348, 4680), (4682, 4685), (4688, 4694), (4696, 4696),
  (4698, 4701), (4704, 4744), (4746, 4749), (4752, 4784), (4786, 4789), (4792, 4798), (4800, 4800), (4802, 4805),
  (4808, 4822), (4824, 4880), (4882, 4885), (4888, 4954), (4992, 5007), (5024, 5109), (5112, 5117), (5121, 5740),
  (5743, 5759), (5761, 5786), (5792, 5866), (5873, 5880), (5888, 5905), (5919, 5937), (5952, 5969), (5984, 5996),
  (5998, 6000), (6016, 6067), (6103, 6103), (6108, 6108), (6176, 6264), (6272, 6276), (6279, 6312), (6314, 6314),
  (6320, 6389), (6400, 6430), (6480, 6509), (6512, 6516), (6528, 6571), (6576, 6601), (6656, 6678), (6688, 6740),
  (6823, 6823), (6917, 6963), (6981, 6988), (7043, 7072), (7086, 7087), (7098, 7141), (7168, 7203), (7245, 7247),
  (7258, 7293), (7296, 7304), (7312, 7354), (7357, 7359), (7401, 7404), (7406, 7411), (7413, 7414), (7418, 7418),
  (7424, 7615), (7680, 7957), (7960, 7965), (7968, 8005), (8008, 8013), (8016, 8023), (8025, 8025), (8027, 8027),
  (8029, 8029), (8031, 8061), (8064, 8116), (8118, 8124), (8126, 8126), (8130, 8132), (8134, 8140), (8144, 8147),
  (8150, 8155), (8160, 8172), (8178, 8180), (8182, 8188), (8305, 8305), (8319, 8319), (8336, 8348), (8450, 8450),
  (8455, 8455), (8458, 8467), (8469, 8469), (8473, 8477), (8484, 8484), (8486, 8486), (8488, 8488), (8490, 8493),
  (8495, 8505), (8508, 8511), (8517, 8521), (8526, 8526), (8579, 8580), (11264, 11492), (11499, 11502), (11506, 11507),
  (11520, 11557), (11559, 11559), (11565, 11565), (11568, 11623), (11631, 11631), (11648, 11670), (11680, 11686), (11688, 11694),
  (11696, 11702), (11704, 11710), (11712, 11718), (11720, 11726), (11728, 11734), (11736, 11742), (11823, 11823), (12293, 12294),
  (12337, 12341), (12347, 12348), (12353, 12438), (12445, 12447), (12449, 12538), (12540, 12543), (12549, 12591), (12593, 12686),
  (12704, 12735), (12784, 12799), (13312, 19903), (19968, 42124), (42192, 42237), (42240, 42508), (42512, 42527), (42538, 42539),
  (42560, 42606), (42623, 42653), (42656, 42725), (42775, 42783), (42786, 42888), (42891, 42954), (42960, 42961), (42963, 42963),
  (42965, 42969), (42994, 43009), (43011, 43013), (43015, 43018), (43020, 43042), (43072, 43123), (43138, 43187), (43250, 43255),
  (43259, 43259), (43261, 43262), (43274, 43301), (43312, 43334), (43360, 43388), (43396, 43442), (43471, 43471), (43488, 43492),
  (43494, 43503), (43514, 43518), (43520, 43560), (43584, 43586), (43588, 43595), (43616, 43638), (43642, 43642), (43646, 43695),
  (43697, 43697), (43701, 43702), (43705, 43709), (43712, 43712), (43714, 43714), (43739, 43741), (43744, 43754), (43762, 43764),
  (43777, 43782), (43785, 43790), (43793, 43798), (43808, 43814), (43816, 43822), (43824, 43866), (43868, 43881), (43888, 44002),
  (44032, 55203), (55216, 55238), (55243, 55291), (63744, 64109), (64112, 64217), (64256, 64262), (64275, 64279), (64285, 64285),
  (64287, 64296), (64298, 64310), (64312, 64316), (64318, 64318), (64320, 64321), (64323, 64324), (64326, 64433), (64467, 64829),
  (64848, 64911), (64914, 64967), (65008, 65019), (65136, 65140), (65142, 65276), (65313, 65338), (65345, 65370), (65382, 65470),
  (65474, 65479), (65482, 65487), (65490, 65495), (65498, 65500), (65536, 65547), (65549, 65574), (65576, 65594), (65596, 65597),
  (65599, 65613), (65616, 65629), (65664, 65786), (66176, 66204), (66208, 66256), (66304, 66335), (66349, 66368), (66370, 66377),
  (66384, 66421), (66432, 66461), (66464, 66499), (66504, 66511), (66560, 66717), (66736, 66771), (66776, 66811), (66816, 66855),
  (66864, 66915), (66928, 66938), (66940, 66954), (66956, 66962), (66964, 66965), (66967, 66977), (66979, 66993), (66995, 67001),
  (67003, 67004), (67072, 67382), (67392, 67413), (67424, 67431), (67456, 67461), (67463, 67504), (67506, 67514), (67584, 67589),
  (67592, 67592), (67594, 67637), (67639, 67640), (67644, 67644), (67647, 67669), (67680, 67702), (67712, 67742), (67808, 67826),
  (67828, 67829), (67840, 67861), (67872, 67897), (67968, 68023), (68030, 68031), (68096, 68096), (68112, 68115), (68117, 68119),
  (68121, 68149), (68192, 68220), (68224, 68252), (68288, 68295), (68297, 68324), (68352, 68405), (68416, 68437), (68448, 68466),
  (68480, 68497), (68608, 68680), (68736, 68786), (68800, 68850), (68864, 68899), (69248, 69289), (69296, 69297), (69376, 69404),
  (69415, 69415), (69424, 69445), (69488, 69505), (69552, 69572), (69600, 69622), (69635, 69687), (69745, 69746), (69749, 69749),
  (69763, 69807), (69840, 69864), (69891, 69926), (69956, 69956), (69959, 69959), (69968, 70002), (70006, 70006), (70019, 70066),
  (70081, 70084), (70106, 70106), (70108, 70108), (70144, 70161), (70163, 70187), (70272, 70278), (70280, 70280), (70282, 70285),
  (70287, 70301), (70303, 70312), (70320, 70366), (70405, 70412), (70415, 70416), (70419, 70440), (70442, 70448), (70450, 70451),
  (70453, 70457), (70461, 70461), (70480, 70480), (70493, 70497), (70656, 70708), (70727, 70730), (70751, 70753), (70784, 70831),
  (70852, 70853), (70855, 70855), (71040, 71086), (71128, 71131), (71168, 71215), (71236, 71236), (71296, 71338), (71352, 71352),
  (71424, 71450), (71488, 71494), (71680, 71723), (71840, 71903), (71935, 71942), (71945, 71945), (71948, 71955), (71957, 71958),
  (71960, 71983), (71999, 71999), (72001, 72001), (72096, 72103), (72106, 72144), (72161, 72161), (72163, 72163), (72192, 72192),
  (72203, 72242), (72250, 72250), (72272, 72272), (72284, 72329), (72349, 72349), (72368, 72440), (72704, 72712), (72714, 72750),
  (72768, 72768), (72818, 72847), (72960, 72966), (72968, 72969), (72971, 73008), (73030, 73030), (73056, 73061), (73063, 73064),
  (73066, 73097), (73112, 73112), (73440, 73458), (73648, 73648), (73728, 74649), (74880, 75075), (77712, 77808), (77824, 78894),
  (82944, 83526), (92160, 92728), (92736, 92766), (92784, 92862), (92880, 92909), (92928, 92975), (92992, 92995), (93027, 93047),
  (93053, 93071), (93760, 93823), (93952, 94026), (94032, 94032), (94099, 94111), (94176, 94177), (94179, 94179), (94208, 100343),
  (100352, 101589), (101632, 101640), (110576, 110579), (110581, 110587), (110589, 110590), (110592, 110882), (110928, 110930), (110948, 110951),
  (110960, 111355), (113664, 113770), (113776, 113788), (113792, 113800), (113808, 113817), (119808, 119892), (119894, 119964), (119966, 119967),
  (119970, 119970), (119973, 119974), (119977, 119980), (119982, 119993), (119995, 119995), (119997, 120003), (120005, 120069), (120071, 120074),
  (120077, 120084), (120086, 120092), (120094, 120121), (120123, 120126), (120128, 120132), (120134, 120134), (120138, 120144), (120146, 120485),
  (120488, 120512), (120514, 120538), (120540, 120570), (120572, 120596), (120598, 120628), (120630, 120654), (120656, 120686), (120688, 120712),
  (120714, 120744), (120746, 120770), (120772, 120779), (122624, 122654), (123136, 123180), (123191, 123197), (123214, 123214), (123536, 123565),
  (123584, 123627), (124896, 124902), (124904, 124907), (124909, 124910), (124912, 124926), (124928, 125124), (125184, 125251), (125259, 125259),
  (126464, 126467), (126469, 126495), (126497, 126498), (126500, 126500), (126503, 126503), (126505, 126514), (126516, 126519), (126521, 126521),
  (126523, 126523), (126530, 126530), (126535, 126535), (126537, 126537), (126539, 126539), (126541, 126543), (126545, 126546), (126548, 126548),
  (126551, 126551), (126553, 126553), (126555, 126555), (126557, 126557), (126559, 126559), (126561, 126562), (126564, 126564), (126567, 126570),
  (126572, 126578), (126580, 126583), (126585, 126588), (126590, 126590), (126592, 126601), (126603, 126619), (126625, 126627), (126629, 126633),
  (126635, 126651), (131072, 173791), (173824, 177976), (177984, 178205), (178208, 183969), (183984, 191456), (194560, 195101), (196608, 201546)]

/-- Code point ranges of Unicode general category N (numbers), the set
matched by the regex class `\\p{N}`. -/
def unicodeNumberRanges : List (Nat × Nat) := [
  (48, 57), (178, 179), (185, 185), (188, 190), (1632, 1641), (1776, 1785), (1984, 1993), (2406, 2415),
  (2534, 2543), (2548, 2553), (2662, 2671), (2790, 2799), (2918, 2927), (2930, 2935), (3046, 3058), (3174, 3183),
  (3192, 3198), (3302, 3311), (3416, 3422), (3430, 3448), (3558, 3567), (3664, 3673), (3792, 3801), (3872, 3891),
  (4160, 4169), (4240, 4249), (4969, 4988), (5870, 5872), (6112, 6121), (6128, 6137), (6160, 6169), (6470, 6479),
  (6608, 6618), (6784, 6793), (6800, 6809), (6992, 7001), (7088, 7097), (7232, 7241), (7248, 7257), (8304, 8304),
  (8308, 8313), (8320, 8329), (8528, 8578), (8581, 8585), (9312, 9371), (9450, 9471), (10102, 10131), (11517, 11517),
  (12295, 12295), (12321, 12329), (12344, 12346), (12690, 12693), (12832, 12841), (12872, 12879), (12881, 12895), (12928, 12937),
  (12977, 12991), (42528, 42537), (42726, 42735), (43056, 43061), (43216, 43225), (43264, 43273), (43472, 43481), (43504, 43513),
  (43600, 43609), (44016, 44025), (65296, 65305), (65799, 65843), (65856, 65912), (65930, 65931), (66273, 66299), (66336, 66339),
  (66369, 66369), (66378, 66378), (66513, 66517), (66720, 66729), (67672, 67679), (67705, 67711), (67751, 67759), (67835, 67839),
  (67862, 67867), (68028, 68029), (68032, 68047), (68050, 68095), (68160, 68168), (68221, 68222), (68253, 68255), (68331, 68335),
  (68440, 68447), (68472, 68479), (68521, 68527), (68858, 68863), (68912, 68921), (69216, 69246), (69405, 69414), (69457, 69460),
  (69573, 69579), (69714, 69743), (69872, 69881), (69942, 69951), (70096, 70105), (70113, 70132), (70384, 70393), (70736, 70745),
  (70864, 70873), (71248, 71257), (71360, 71369), (71472, 71483), (71904, 71922), (72016, 72025), (72784, 72812), (73040, 73049),
  (73120, 73129), (73664, 73684), (74752, 74862), (92768, 92777), (92864, 92873), (93008, 93017), (93019, 93025), (93824, 93846),
  (119520, 119539), (119648, 119672), (120782, 120831), (123200, 123209), (123632, 123641), (125127, 125135), (125264, 125273), (126065, 126123),
  (126125, 126127), (126129, 126132), (126209, 126253), (126255, 126269), (127232, 127244), (130032, 130041)]

/-- Code point ranges of Unicode general category Nd (decimal digits). -/
def decimalDigitRanges : List (Nat × Nat) := [
  (48, 57), (1632, 1641), (1776, 1785), (1984, 1993), (2406, 2415), (2534, 2543), (2662, 2671), (2790, 2799),
  (2918, 2927), (3046, 3055), (3174, 3183), (3302, 3311), (3430, 3439), (3558, 3567), (3664, 3673), (3792, 3801),
  (3872, 3881), (4160, 4169), (4240, 4249), (6112, 6121), (6160, 6169), (6470, 6479), (6608, 6617), (6784, 6793),
  (6800, 6809), (6992, 7001), (7088, 7097), (7232, 7241), (7248, 7257), (42528, 42537), (43216, 43225), (43264, 43273),
  (43472, 43481), (43504, 43513), (43600, 43609), (44016, 44025), (65296, 65305), (66720, 66729), (68912, 68921), (69734, 69743),
  (69872, 69881), (69942, 69951), (70096, 70105), (70384, 70393), (70736, 70745), (70864, 70873), (71248, 71257), (71360, 71369),
  (71472, 71481), (71904, 71913), (72016, 72025), (72784, 72793), (73040, 73049), (73120, 73129), (92768, 92777), (92864, 92873),
  (93008, 93017), (120782, 120831), (123200, 123209), (123632, 123641), (125264, 125273), (130032, 130041)]

/-- Script = Devanagari code point ranges (Scripts.txt). -/
def devaScriptRanges : List (Nat × Nat) :=
  [(2304, 2384), (2389, 2403), (2406, 2431), (43232, 43263)]

/-- Script = Thai code point ranges (Scripts.txt). -/
def thaiScriptRanges : List (Nat × Nat) :=
  [(3585, 3642), (3648, 3675)]

def inRanges (rs : List (Nat × Nat)) (n : Nat) : Bool :=
  rs.any (fun r => r.1 ≤ n && n ≤ r.2)

/-- The character class of `NAME_REGEX`: hyphen, underscore, any Unicode
letter, any Unicode number, or any character of the Devanagari or Thai
scripts. -/
def nameClassChar (c : Char) : Bool :=
  c = '-' || c = '_' || inRanges unicodeLetterRanges c.toNat ||
    inRanges unicodeNumberRanges c.toNat ||
    inRanges devaScriptRanges c.toNat || inRanges thaiScriptRanges c.toNat

/-- Embedding of `NAME_REGEX.test`: the anchored pattern accepts exactly the
strings of 1 to 32 characters all drawn from the class. -/
def NAME_REGEX_test (s : String) : Bool :=
  decide (1 ≤ s.length) && decide (s.length ≤ 32) && s.data.all nameClassChar

/-- Character set written from the claim's words: a letter, a digit, a
hyphen, or an underscore. -/
def claimNameChar (c : Char) : Bool :=
  c = '-' || c = '_' || inRanges unicodeLetterRanges c.toNat ||
    inRanges decimalDigitRanges c.toNat

/-- Acceptance predicate written from the claim's words: 1 to 32 characters,
each a letter, digit, hyphen, or underscore. -/
def claimNameAccept (s : String) : Bool :=
  decide (1 ≤ s.length) && decide (s.length ≤ 32) && s.data.all claimNameChar

set_option maxRecDepth 8192 in
/-- C8 counterexample: U+0E5B (THAI CHARACTER KHOMUT, a punctuation mark of
general category Po inside the Thai script range) is accepted by
`NAME_REGEX` via `\\p{sc=Thai}`, yet it is neither a letter nor a digit nor a
hyphen nor an underscore — so the regex does not accept exactly the
claimed set. -/
theorem name_regex_not_claim_charset :
    NAME_REGEX_test (String.mk [Char.ofNat 3675]) = true ∧
    claimNameAccept (String.mk [Char.ofNat 3675]) = false := by
  constructor
  · decide
  · decide

set_option maxRecDepth 8192 in
/-- C8 amended: `NAME_REGEX` accepts a name exactly when it is 1 to 32
characters long and every character is a hyphen, an underscore, a Unicode
letter, a Unicode number, or a character of the Devanagari or Thai scripts
(the script classes also admit those scripts' marks, digits and punctuation,
such as U+0E5B); in particular it rejects the empty string, every string
longer than 32 characters, and ASCII punctuation. -/
theorem name_regex_charset :
    (∀ s : String, NAME_REGEX_test s = true ↔
      (1 ≤ s.length ∧ s.length ≤ 32 ∧ ∀ c ∈ s.data, nameClassChar c = true)) ∧
    NAME_REGEX_test ("") = false ∧
    (∀ s : String, 32 < s.length → NAME_REGEX_test s = false) ∧
    NAME_REGEX_test ("a!") = false := by
  refine ⟨?_, by decide, ?_, by decide⟩
  · intro s
    unfold NAME_REGEX_test
    simp only [Bool.and_eq_true, decide_eq_true_eq, List.all_eq_true]
    exact and_assoc
  · intro s h
    unfold NAME_REGEX_test
    have hd : decide (s.length ≤ 32) = false := by
      simp
      omega
    simp [hd]

set_option maxRecDepth 8192 in
theorem name_regex_charset_witness :
    NAME_REGEX_test (String.mk (List.replicate 33 'a')) = false :=
  name_regex_charset.2.2.1 (String.mk (List.replicate 33 'a')) (by decide)

/-- A slash-command option derived from a route
(ApplicationCommandOptionType.STRING = 3). -/
structure AppCommandOption where
  type : Nat
  name : String
  description : String
  required : Bool
deriving DecidableEq, Repr

/-- A partial application command derived from a route. -/
structure AppCommand where
  name : String
  description : String
  options : List AppCommandOption
deriving DecidableEq, Repr

/-- JavaScript `pathname.split("/")`: split on every slash, keeping empty
segments. -/
def splitSlashAux : List Char → List Char → List String
  | [], cur => [String.mk cur.reverse]
  | c :: rest, cur =>
    if c = '/' then String.mk cur.reverse :: splitSlashAux rest []
    else splitSlashAux rest (c :: cur)

def jsSplitSlash (s : String) : List String := splitSlashAux s.data []

/-- JavaScript `param.substring(1)`: drop the first character. -/
def jsSubstring1 (s : String) : String := String.mk s.data.tail

/-- JavaScript `a || b` on strings: `b` when `a` is absent or empty. -/
def jsOrElse : Option String → String → String
  | some d, n => if d = "" then n else d
  | none, n => n

/-- A required (path-parameter) option: name and description are the segment
text without its leading `:`. -/
def mkRequiredOption (param : String) : AppCommandOption :=
  ⟨3, jsSubstring1 param, jsSubstring1 param, true⟩

/-- An optional (query-parameter) option. -/
def mkOptionalOption (name : String) : AppCommandOption :=
  ⟨3, name, name, false⟩

/-- Embedding of `commandFromUri`.  The `URL` constructor has already
produced the pathname (always beginning with a slash) and the ordered search
parameter keys.  `pathname.split("/")` destructures into the leading empty
string, the command name, and the remaining `:name` segments; a name
rejected by `NAME_REGEX` drops the route.  Required options are pushed
first, then the optional options, in declaration order. -/
def commandFromUri (pathname : String) (searchKeys : List String)
    (displayName : Option String) : Option AppCommand :=
  if NAME_REGEX_test (((jsSplitSlash pathname).drop 1).headD ("")) then
    some ⟨((jsSplitSlash pathname).drop 1).headD (""),
      jsOrElse displayName (((jsSplitSlash pathname).drop 1).headD ("")),
      ((jsSplitSlash pathname).drop 2).map mkRequiredOption ++
        searchKeys.map mkOptionalOption⟩
  else none

/-- C7: whenever a route yields a command, its option list is exactly the N
required options (one per `:name` path segment, in declaration order)
followed by the M optional options (one per query key, in declaration
order); it has length N + M, every option in the first group is required and
every option in the second group is optional. -/
theorem command_options_ordered (pathname : String) (searchKeys : List String)
    (displayName : Option String) (cmd : AppCommand)
    (h : commandFromUri pathname searchKeys displayName = some cmd) :
    cmd.options.length =
      ((jsSplitSlash pathname).drop 2).length + searchKeys.length ∧
    cmd.options.take ((jsSplitSlash pathname).drop 2).length =
      ((jsSplitSlash pathname).drop 2).map mkRequiredOption ∧
    cmd.options.drop ((jsSplitSlash pathname).drop 2).length =
      searchKeys.map mkOptionalOption ∧
    (∀ opt ∈ cmd.options.take ((jsSplitSlash pathname).drop 2).length,
      opt.required = true) ∧
    (∀ opt ∈ cmd.options.drop ((jsSplitSlash pathname).drop 2).length,
      opt.required = false) := by
  unfold commandFromUri at h
  split_ifs at h with hn
  · injection h with h
    subst h
    have hlenr : (((jsSplitSlash pathname).drop 2).map mkRequiredOption).length =
        ((jsSplitSlash pathname).drop 2).length := List.length_map _ _
    refine ⟨?_, ?_, ?_, ?_, ?_⟩
    · simp [List.length_append, List.length_map]
    · rw [List.take_left' hlenr]
    · rw [List.drop_left' hlenr]
    · rw [List.take_left' hlenr]
      intro opt hopt
      rcases List.mem_map.mp hopt with ⟨x, hx, rfl⟩
      rfl
    · rw [List.drop_left' hlenr]
      intro opt hopt
      rcases List.mem_map.mp hopt with ⟨x, hx, rfl⟩
      rfl

set_option maxRecDepth 8192 in
theorem command_options_ordered_witness :
    (AppCommand.mk ("hello") ("hello")
        [⟨3, "name", "name", true⟩, ⟨3, "age", "age", false⟩]).options.length =
      ((jsSplitSlash ("/hello/:name")).drop 2).length +
        (["age"] : List String).length :=
  (command_options_ordered ("/hello/:name") ["age"] none
    (AppCommand.mk ("hello") ("hello")
      [⟨3, "name", "name", true⟩, ⟨3, "age", "age", false⟩])
    (by decide)).1

/-! ### The 404-abort behaviour of the edit loop (src/router.ts lines
411-437)

Each non-empty decoded chunk produces one content update and one edit call;
the HTTP status of the i-th edit call is read from an oracle list
(defaulting to 200 once exhausted).  A 404 fires
`abortController.abort(...)`, modelled by the `aborted` flag; nothing in the
transform inspects that flag before issuing further edits. -/

structure BridgeState where
  content : String
  aborted : Bool
  editCount : Nat
deriving DecidableEq, Repr

/-- Run the transform over a list of chunks. -/
def bridgeRun (limit : Nat) :
    List String → List Nat → BridgeState → BridgeState
  | [], _, s => s
  | chunk :: rest, statuses, s =>
    if chunk = "" then bridgeRun limit rest statuses s
    else
      bridgeRun limit rest statuses.tail
        ⟨updateContent limit s.content chunk,
         s.aborted || (statuses.headD 200 == 404), s.editCount + 1⟩

/-- C6 counterexample: with two chunks and a 404 returned for the FIRST
edit, the abort signal fires, yet a second edit call is still attempted
(edit count 2) — refuting the claim that no further edit calls are attempted
after a 404. -/
theorem bridge_edits_after_404 :
    (bridgeRun 2000 ["a", "b"] [404, 200] ⟨"", false, 0⟩).aborted = true ∧
    (bridgeRun 2000 ["a", "b"] [404, 200] ⟨"", false, 0⟩).editCount = 2 := by
  constructor
  · rfl
  · rfl

/-- C6 amended: a 404 on any edit triggers the interaction's abort signal
(and the signal stays set), but the transform itself keeps attempting one
edit per subsequent non-empty chunk regardless of earlier statuses — the
edit count equals the number of non-empty chunks, independent of the status
oracle; stopping relies on the handler honouring the cancellation. -/
theorem bridge_abort_best_effort (limit : Nat) (chunks : List String)
    (statuses : List Nat) (s : BridgeState) :
    (bridgeRun limit chunks statuses s).editCount =
      s.editCount + (chunks.filter (fun c => !(c == ""))).length ∧
    (s.aborted = true → (bridgeRun limit chunks statuses s).aborted = true) ∧
    (∀ i, i < (chunks.filter (fun c => !(c == ""))).length →
      statuses[i]? = some 404 →
      (bridgeRun limit chunks statuses s).aborted = true) := by
  induction chunks generalizing statuses s with
  | nil =>
    refine ⟨by simp [bridgeRun], fun h => by simpa [bridgeRun] using h, ?_⟩
    intro i hi
    simp at hi
  | cons c rest ih =>
    by_cases hc : c = ""
    · have hstep : bridgeRun limit (c :: rest) statuses s =
          bridgeRun limit rest statuses s := by
        simp only [bridgeRun]
        rw [if_pos hc]
      have hfil : (c :: rest).filter (fun c => !(c == "")) =
          rest.filter (fun c => !(c == "")) := by
        simp [List.filter_cons, hc]
      rw [hstep, hfil]
      exact ih statuses s
    · have hstep : bridgeRun limit (c :: rest) statuses s =
          bridgeRun limit rest statuses.tail
            ⟨updateContent limit s.content c,
             s.aborted || (statuses.headD 200 == 404), s.editCount + 1⟩ := by
        simp only [bridgeRun]
        rw [if_neg hc]
      have hfil : (c :: rest).filter (fun c => !(c == "")) =
          c :: rest.filter (fun c => !(c == "")) := by
        simp [List.filter_cons, hc]
      rw [hstep, hfil]
      obtain ⟨ihc, ihm, ih404⟩ := ih statuses.tail
        ⟨updateContent limit s.content c,
         s.aborted || (statuses.headD 200 == 404), s.editCount + 1⟩
      refine ⟨?_, ?_, ?_⟩
      · rw [ihc]
        simp [List.length_cons]
        omega
      · intro hs
        apply ihm
        simp [hs]
      · intro i hi h404
        cases i with
        | zero =>
          apply ihm
          have hhead : statuses.headD 200 = 404 := by
            cases statuses with
            | nil => simp at h404
            | cons a t => simpa using h404
          simp only [Bool.or_eq_true, beq_iff_eq]
          exact Or.inr hhead
        | succ j =>
          apply ih404 j
          · simp only [List.length_cons] at hi
            omega
          · cases statuses with
            | nil => simp at h404
            | cons a t => simpa using h404

theorem bridge_abort_best_effort_witness :
    (bridgeRun 2000 ["a"] [404] ⟨"", false, 0⟩).aborted = true :=
  (bridge_abort_best_effort 2000 ["a"] [404] ⟨"", false, 0⟩).2.2 0
    (by decide) (by decide)

/-! ### Synthetic request headers (src/router.ts lines 321-330) -/

/-- The Base64 alphabet used by `btoa`. -/
def base64Chars : List Char :=
  ("ABCDEFGHIJKLMNOPQRSTUVWXYZabcdefghijklmnopqrstuvwxyz0123456789+/").data

def b64At (n : Nat) : Char := base64Chars.getD n ('=')

/-- Standard Base64 encoding of a byte list, with `=` padding. -/
def btoaGo : List Nat → List Char
  | [] => []
  | [a] => [b64At (a / 4), b64At (a % 4 * 16), '=', '=']
  | [a, b] => [b64At (a / 4), b64At (a % 4 * 16 + b / 16), b64At (b % 16 * 4), '=']
  | a :: b :: c :: rest =>
    b64At (a / 4) :: b64At (a % 4 * 16 + b / 16) ::
      b64At (b % 16 * 4 + c / 64) :: b64At (c % 64) :: btoaGo rest

/-- JavaScript `btoa` on a Latin-1 string (user ids are ASCII digits). -/
def btoa (s : String) : String := String.mk (btoaGo (s.data.map Char.toNat))

/-- The fields of the interaction that the synthetic `Request` construction
reads: `member.user.id` (with `member` or `member.user` possibly absent),
`locale` and `guild_locale`. -/
structure InteractionCtx where
  memberUser : Option (Option String)
  locale : String
  guild_locale : String
deriving DecidableEq, Repr

/-- Embedding of the header construction for the synthetic request:
`Authorization: Basic btoa(member.user.id + ":")` and
`Accept-Language: locale,guild_locale;q=0.9`.  The code dereferences
`member!.user!.id`, so an interaction without `member.user` throws a
`TypeError` and cannot be dispatched. -/
def buildRequestHeaders (i : InteractionCtx) : Except String (String × String) :=
  match i.memberUser with
  | some (some id) =>
    Except.ok ("Basic " ++ btoa (id ++ ":"),
      i.locale ++ "," ++ i.guild_locale ++ ";q=0.9")
  | _ => Except.error ("TypeError: Cannot read properties of undefined")

/-- C10: when `member.user` is present the synthetic request carries
`Authorization: Basic` + Base64 of `id:` and `Accept-Language:
locale,guild_locale;q=0.9`; without `member.user` the dispatch throws (no
request is built); and the encoder is genuine Base64 (`123:` encodes to
`MTIzOg==`). -/
theorem interaction_request_headers (i : InteractionCtx) :
    (∀ id, i.memberUser = some (some id) →
      buildRequestHeaders i =
        Except.ok ("Basic " ++ btoa (id ++ ":"),
          i.locale ++ "," ++ i.guild_locale ++ ";q=0.9")) ∧
    (i.memberUser = none ∨ i.memberUser = some none →
      ∃ e, buildRequestHeaders i = Except.error e) ∧
    btoa ("123:") = "MTIzOg==" := by
  refine ⟨?_, ?_, by decide⟩
  · intro id h
    simp [buildRequestHeaders, h]
  · rintro (h | h) <;> simp [buildRequestHeaders, h]

theorem interaction_request_headers_witness :
    buildRequestHeaders ⟨some (some ("123")), "en-US", "en-GB"⟩ =
      Except.ok ("Basic MTIzOg==", "en-US,en-GB;q=0.9") :=
  ((interaction_request_headers ⟨some (some ("123")), "en-US", "en-GB"⟩).1
    ("123") rfl).trans (by rfl)

end Web2bot
